import Mathlib

/-!
# Verification of the YouTube comment scraper core

Shallow embedding of `src/youtube_comment_scraper.py` (class
`YouTubeCommentScraper`) and `src/config.py`: the count parser, the
extraction pipeline, the video filter, the adaptive scroll controller and
the run orchestrator, together with theorems settling the specification
claims about them.

Browser interaction (Selenium) is modelled as an environment: each query
the code makes against the page (element counts, element presence, text of
elements) is a field of an explicit environment record, so the pure control
logic of the source is embedded exactly while the page itself stays opaque.
-/

namespace Scraper

/-! ## Python primitives

The source uses Python built-ins `str.strip`, `str.upper`, `str.replace`,
`float(...)`, `int(...)` and `re.findall(r"\d+", ...)`.  They are modelled
here on `List Char`.  `float` is modelled on plain decimal literals
(optional sign, digits with at most one dot) — the exponent/underscore/
inf/nan forms of Python floats never arise from the inputs the scraper
feeds it, and no claim depends on them; binary-float rounding is abstracted
to exact decimal arithmetic (a mantissa over a power of ten), with `int()`
truncation toward zero. -/

/-- Python `str.strip()`: drop whitespace from both ends. -/
def pyStripList (l : List Char) : List Char :=
  ((l.dropWhile Char.isWhitespace).reverse.dropWhile Char.isWhitespace).reverse

/-- Python `str.strip()` on a `String`. -/
def pyStrip (s : String) : String :=
  ⟨pyStripList s.data⟩

/-- Value of a run of decimal digits. -/
def digitsToNat (l : List Char) : Nat :=
  l.foldl (fun acc c => acc * 10 + (c.toNat - 48)) 0

/-- All characters are decimal digits (vacuously true of `[]`). -/
def allDigits (l : List Char) : Bool :=
  l.all Char.isDigit

/-- Optional leading sign of a Python numeric literal. -/
def parseSign : List Char → Int × List Char
  | '-' :: rest => (-1, rest)
  | '+' :: rest => (1, rest)
  | l => (1, l)

/-- Unsigned decimal literal as (mantissa, scale): the value is
`mantissa / 10 ^ scale`.  Accepts `d+`, `d+.d*` and `.d+` like Python
`float`; rejects anything else. -/
def parseUnsignedDecimal? (l : List Char) : Option (Nat × Nat) :=
  if l.contains '.' then
    let intPart := l.takeWhile (· ≠ '.')
    let rest := (l.dropWhile (· ≠ '.')).drop 1
    if rest.contains '.' then none
    else if allDigits intPart && allDigits rest && (!intPart.isEmpty || !rest.isEmpty) then
      some (digitsToNat intPart * 10 ^ rest.length + digitsToNat rest, rest.length)
    else none
  else if allDigits l && !l.isEmpty then some (digitsToNat l, 0) else none

/-- Python `float(s)` on the simple decimal forms, as an exact pair
(signed mantissa, scale); `none` models the `ValueError` the `except`
branches of the source absorb. -/
def pyFloat? (l : List Char) : Option (Int × Nat) :=
  let p := parseSign (pyStripList l)
  (parseUnsignedDecimal? p.2).map (fun mk => (p.1 * mk.1, mk.2))

/-- Python `int(s)` on a string: optional sign then digits; `none` models
`ValueError`. -/
def pyInt? (l : List Char) : Option Int :=
  let p := parseSign (pyStripList l)
  if allDigits p.2 && !p.2.isEmpty then some (p.1 * digitsToNat p.2) else none

/-- Python `int(x)` on the exact value `m / 10 ^ k`: truncation toward
zero. -/
def truncScaled (m : Int) (k : Nat) : Int :=
  m.tdiv ((10 : Int) ^ k)

/-! ## Count Parser (`_parse_count`, `_parse_reply_count`) -/

/-- Source `_parse_count` (src/youtube_comment_scraper.py:468-489): parse count
strings such as "1.2K" or "500" to integers; every failure yields 0.
`str.upper` is `Char.toUpper` per character and the single-character
`str.replace(c, "")` calls are modelled as filters. -/
def parse_count (count_text : String) : Int :=
  if count_text = "" then 0
  else
    let t : List Char := (count_text.data.map Char.toUpper).filter (· ≠ ',')
    -- multipliers iterate K (1000) first, then M (1000000)
    if t.contains 'K' then
      match pyFloat? (t.filter (· ≠ 'K')) with
      | some mk => truncScaled (mk.1 * 1000) mk.2
      | none => 0
    else if t.contains 'M' then
      match pyFloat? (t.filter (· ≠ 'M')) with
      | some mk => truncScaled (mk.1 * 1000000) mk.2
      | none => 0
    else
      match pyInt? t with
      | some n => n
      | none => 0

/-- First maximal run of digits anywhere in the string, as
`re.findall(r"\d+", s)` yields it. -/
def firstDigitRun? : List Char → Option (List Char)
  | [] => none
  | c :: rest =>
    if c.isDigit then some (c :: rest.takeWhile Char.isDigit)
    else firstDigitRun? rest

/-- Source `_parse_reply_count` (src/youtube_comment_scraper.py:491-498): the
first run of digits found anywhere, else 0. -/
def parse_reply_count (reply_text : String) : Int :=
  match firstDigitRun? reply_text.data with
  | some ds => (digitsToNat ds : Int)
  | none => 0

/-! ## Extraction Pipeline

A rendered comment node is modelled by the outcomes of the selector
queries `extract_comment_data` and its helpers make against it: each
`find_element` that can raise `NoSuchElementException` (absorbed by the
source's `try/except`) is an `Option`, carrying the element's stripped-
relevant text when present; each marker-presence probe
(`_has_dislike_button`, `_is_comment_pinned`, `_is_comment_hearted`) is a
`Bool`. -/

/-- The `#comment` sub-element of a thread renderer, as the selector
queries of the extraction helpers see it. -/
structure CommentContent where
  /-- text of `#content-text`, `none` when the element is missing -/
  contentText : Option String
  /-- text of `#author-text` -/
  authorText : Option String
  /-- text of `#vote-count-middle` -/
  voteText : Option String
  /-- text of `#more-replies` -/
  replyText : Option String
  /-- text of `.published-time-text a` -/
  timeText : Option String
  /-- an `[aria-label*='Dislike']` element is present -/
  hasDislikeMarker : Bool
  /-- an `[aria-label*='Pinned']` element is present -/
  hasPinnedMarker : Bool
  /-- a `#creator-heart` element is present -/
  hasHeartMarker : Bool
deriving Repr, DecidableEq

/-- One `ytd-comment-thread-renderer` node: its `#comment` child may be
missing (the `find_element` in `_process_comment_elements` then raises and
the node is skipped). -/
structure CommentNode where
  mainComment : Option CommentContent
deriving Repr, DecidableEq

/-- The per-comment fields of the record `extract_comment_data` builds. -/
structure CommentData where
  comment_text : String
  author_name : String
  upvotes : Int
  downvotes : Int
  has_dislike_button : Bool
  reply_count : Int
  timestamp : String
  is_pinned : Bool
  is_hearted : Bool
deriving Repr, DecidableEq

/-- Source `extract_comment_data` (src/youtube_comment_scraper.py:391-405) with
its helpers `_extract_basic_comment_info` (407-425),
`_extract_engagement_metrics` (427-449) and `_extract_comment_metadata`
(451-466) inlined: each field defaults independently when its selector
fails; the record is returned only when `comment_data.get('comment_text')`
is truthy, i.e. the stripped text is non-empty. -/
def extract_comment_data (c : CommentContent) : Option CommentData :=
  let d : CommentData :=
    { comment_text := (c.contentText.map pyStrip).getD ""
      author_name := (c.authorText.map pyStrip).getD ""
      upvotes := match c.voteText with
        | some t => parse_count (pyStrip t)
        | none => 0
      downvotes := 0
      has_dislike_button := c.hasDislikeMarker
      reply_count := match c.replyText with
        | some t => parse_reply_count (pyStrip t)
        | none => 0
      timestamp := (c.timeText.map pyStrip).getD ""
      is_pinned := c.hasPinnedMarker
      is_hearted := c.hasHeartMarker }
  if d.comment_text = "" then none else some d

/-- Extraction of one thread node: locate `#comment`, then
`extract_comment_data`; any failure is absorbed and yields `none`. -/
def extractNode (el : CommentNode) : Option CommentData :=
  el.mainComment.bind extract_comment_data

/-! ## Video rows and per-comment video metadata -/

/-- One row of the input video table as `row.to_dict()` hands it to the
scraper.  Cells are `Option String`: `none` models a missing key
(`dict.get` then returns its default).  The field names transliterate the
CSV columns `No.`, `날짜`, `채널명`, `제목`, `URL`, `댓글 수`, `좋아요 수`,
`조회수`. -/
structure VideoRow where
  no : Option String
  date : Option String
  channel : Option String
  title : Option String
  url : Option String
  comments : Option String
  likes : Option String
  views : Option String
deriving Repr, DecidableEq

/-- The video/scrape metadata `_build_video_metadata`
(src/youtube_comment_scraper.py:588-604) stamps on each comment.  String
cells keep their `dict.get(key, '')` default; the three count cells keep
the raw `Option` (the source's default for them is the integer 0, which we
record as `none`).  `scraped_at` is the instant passed in for
`datetime.now()`. -/
structure VideoMetaStamp where
  video_no : String
  video_date : String
  channel_name : String
  video_title : String
  video_url : String
  total_comments : Option String
  total_likes : Option String
  total_views : Option String
  scraped_at : Nat
  comment_position : Nat
deriving Repr, DecidableEq

/-- Source `_build_video_metadata` (src/youtube_comment_scraper.py:588-604). -/
def build_video_metadata (video_data : VideoRow) (video_url : String)
    (position : Nat) (now : Nat) : VideoMetaStamp :=
  { video_no := video_data.no.getD ""
    video_date := video_data.date.getD ""
    channel_name := video_data.channel.getD ""
    video_title := video_data.title.getD ""
    video_url := video_data.url.getD video_url
    total_comments := video_data.comments
    total_likes := video_data.likes
    total_views := video_data.views
    scraped_at := now
    comment_position := position }

/-- A fully assembled comment record: the extracted fields merged with the
video metadata, as `comment_data.update(...)` leaves the dict. -/
structure FullComment where
  data : CommentData
  meta : VideoMetaStamp
deriving Repr, DecidableEq

/-- The loop body of `_process_comment_elements`
(src/youtube_comment_scraper.py:563-586), with the running `enumerate`
index made explicit: a node whose extraction fails is skipped
(`continue`), and a successful record is stamped with position `i + 1`
where `i` is the node's index in the full element list. -/
def processCommentsFrom (video_data : VideoRow) (video_url : String)
    (now : Nat) : Nat → List CommentNode → List FullComment
  | _, [] => []
  | i, el :: rest =>
    match extractNode el with
    | some d =>
      ⟨d, build_video_metadata video_data video_url (i + 1) now⟩ ::
        processCommentsFrom video_data video_url now (i + 1) rest
    | none => processCommentsFrom video_data video_url now (i + 1) rest

/-- Source `_process_comment_elements` (src/youtube_comment_scraper.py:563-586). -/
def process_comment_elements (comment_elements : List CommentNode)
    (video_data : VideoRow) (video_url : String) (now : Nat) : List FullComment :=
  processCommentsFrom video_data video_url now 0 comment_elements

/-! ## Video Filter (`apply_video_filters`) -/

/-- Source `parse_korean_number` (src/youtube_comment_scraper.py:685-694), the
helper local to `apply_video_filters`: `none` models a `pd.isna` cell; the
string otherwise loses commas and spaces and goes through
`int(float(...))`, any failure yielding 0. -/
def parse_korean_number (value : Option String) : Int :=
  match value with
  | none => 0
  | some v =>
    if v = "" then 0
    else
      match pyFloat? (v.data.filter (fun c => c ≠ ',' && c ≠ ' ')) with
      | some mk => truncScaled mk.1 mk.2
      | none => 0

/-- The six filtering thresholds of src/config.py: `MIN_*` are integers
(0 disables), `MAX_*` are `None`-able (`none` disables). -/
structure FilterConfig where
  MIN_COMMENTS : Int
  MIN_LIKES : Int
  MIN_VIEWS : Int
  MAX_COMMENTS : Option Int
  MAX_LIKES : Option Int
  MAX_VIEWS : Option Int
deriving Repr, DecidableEq

/-- The values shipped in src/config.py:55-60. -/
def shippedFilterConfig : FilterConfig :=
  { MIN_COMMENTS := 10, MIN_LIKES := 0, MIN_VIEWS := 500
    MAX_COMMENTS := none, MAX_LIKES := none, MAX_VIEWS := none }

/-- The parsed helper values `댓글수_int`, `좋아요수_int`, `조회수_int`
that `apply_video_filters` attaches to each row before filtering. -/
def rowInts (r : VideoRow) : VideoRow × Int × Int × Int :=
  (r, parse_korean_number r.comments, parse_korean_number r.likes,
    parse_korean_number r.views)

/-- One `if config.MIN_X > 0: df = df[df[col] >= config.MIN_X]` block of
`apply_video_filters`. -/
def minStage (t : Int) (f : α → Int) (l : List α) : List α :=
  if t > 0 then l.filter (fun x => t ≤ f x) else l

/-- One `if config.MAX_X is not None: df = df[df[col] <= config.MAX_X]`
block of `apply_video_filters`. -/
def maxStage (o : Option Int) (f : α → Int) (l : List α) : List α :=
  match o with
  | some m => l.filter (fun x => f x ≤ m)
  | none => l

/-- Source `apply_video_filters` (src/youtube_comment_scraper.py:678-763): attach
the parsed helper columns, apply the six threshold blocks in source order,
then drop the helper columns by projecting back to the original rows. -/
def apply_video_filters (cfg : FilterConfig) (df : List VideoRow) : List VideoRow :=
  (maxStage cfg.MAX_VIEWS (fun x => x.2.2.2)
    (maxStage cfg.MAX_LIKES (fun x => x.2.2.1)
      (maxStage cfg.MAX_COMMENTS (fun x => x.2.1)
        (minStage cfg.MIN_VIEWS (fun x => x.2.2.2)
          (minStage cfg.MIN_LIKES (fun x => x.2.2.1)
            (minStage cfg.MIN_COMMENTS (fun x => x.2.1)
              (df.map rowInts))))))).map (fun x => x.1)

/-- One minimum bound as a row predicate: a threshold that is not positive
is disabled. -/
def passMin (t v : Int) : Bool :=
  if 0 < t then t ≤ v else true

/-- One maximum bound as a row predicate: `none` is disabled. -/
def passMax (o : Option Int) (v : Int) : Bool :=
  match o with
  | some m => v ≤ m
  | none => true

/-- The six bounds combined on one row, in the order the source applies
them. -/
def videoPasses (cfg : FilterConfig) (r : VideoRow) : Bool :=
  passMin cfg.MIN_COMMENTS (parse_korean_number r.comments) &&
  (passMin cfg.MIN_LIKES (parse_korean_number r.likes) &&
  (passMin cfg.MIN_VIEWS (parse_korean_number r.views) &&
  (passMax cfg.MAX_COMMENTS (parse_korean_number r.comments) &&
  (passMax cfg.MAX_LIKES (parse_korean_number r.likes) &&
  passMax cfg.MAX_VIEWS (parse_korean_number r.views)))))

theorem minStage_eq_filter (t : Int) (f : α → Int) (l : List α) :
    minStage t f l = l.filter (fun x => passMin t (f x)) := by
  by_cases h : t > 0 <;> simp [minStage, passMin, h]

theorem maxStage_eq_filter (o : Option Int) (f : α → Int) (l : List α) :
    maxStage o f l = l.filter (fun x => passMax o (f x)) := by
  cases o <;> simp [maxStage, passMax]

/-- Function `apply_video_filters` is the single-pass filter by the combined row
predicate: the helper columns carry no information beyond their row. -/
theorem apply_video_filters_eq_filter (cfg : FilterConfig) (df : List VideoRow) :
    apply_video_filters cfg df = df.filter (videoPasses cfg) := by
  unfold apply_video_filters
  rw [minStage_eq_filter, minStage_eq_filter, minStage_eq_filter,
    maxStage_eq_filter, maxStage_eq_filter, maxStage_eq_filter,
    List.filter_filter, List.filter_filter, List.filter_filter,
    List.filter_filter, List.filter_filter, List.filter_map, List.map_map]
  have hfun : ((fun (x : VideoRow × Int × Int × Int) => x.1) ∘ rowInts) =
      fun r => r := by
    funext r; rfl
  rw [hfun, List.map_id_fun']
  refine List.filter_congr (fun r _ => ?_)
  simp only [Function.comp_apply, rowInts]
  simp [videoPasses, Bool.and_comm, Bool.and_assoc, Bool.and_left_comm]

/-! ## Adaptive Scroll Controller (`_perform_smart_scroll`)

The loop state of `_perform_smart_scroll`
(src/youtube_comment_scraper.py:169-218) is `last_comment_count`,
`no_new_comments_count` and `scroll_attempts`.  Everything the loop reads
from the page is an environment indexed by the iteration number: `obs k`
is `len(self._get_current_comments())` re-queried in iteration `k`
(`obs 0` is the initial query before the loop), and the probes of
`_try_final_scroll` / `_detect_related_videos_section` read their own
fields.  The advance actions themselves (`_youtube_specific_scroll`,
`_extra_patient_scroll`, the sleeps) mutate no Python state read by the
loop — their page effects surface only through these observations — so
they need no further modelling. -/

/-- The two loop-governing constants of src/config.py. -/
structure ScrollConfig where
  MAX_SCROLL_ATTEMPTS : Nat
  MAX_NO_NEW_COMMENTS : Nat
deriving Repr, DecidableEq

/-- The values shipped in src/config.py:23-26. -/
def shippedScrollConfig : ScrollConfig :=
  { MAX_SCROLL_ATTEMPTS := 5000, MAX_NO_NEW_COMMENTS := 1 }

/-- Page observations, indexed by main-loop iteration number. -/
structure ScrollEnv where
  /-- comment count `len(self._get_current_comments())` in iteration `k` -/
  obs : Nat → Nat
  /-- comment count at the j-th of the 3 attempts of `_try_final_scroll`
  invoked from iteration `k` -/
  finalObs : Nat → Nat → Nat
  /-- `len(ytd-compact-video-renderer)` probed in iteration `k` -/
  relatedCount : Nat → Nat
  /-- a `#comments` area element exists when probed in iteration `k` -/
  commentsArea : Nat → Bool
  /-- a `ytd-continuation-item-renderer` exists when probed in iteration `k` -/
  continuationItems : Nat → Bool

/-- Source `_has_new_comments` (src/youtube_comment_scraper.py:317-319). -/
def has_new_comments (current_count last_count : Nat) : Bool :=
  current_count > last_count

/-- Source `_try_final_scroll` (src/youtube_comment_scraper.py:339-362): up to 3
aggressive attempts from iteration `k`; true as soon as one observes a
count above `last_count`. -/
def try_final_scroll (env : ScrollEnv) (k last_count : Nat) : Bool :=
  (List.range 3).any (fun j => env.finalObs k j > last_count)

/-- Source `_detect_related_videos_section`
(src/youtube_comment_scraper.py:364-389): more than 15 related-video
renderers, and neither a comments area nor a continuation item remains. -/
def detect_related_videos_section (env : ScrollEnv) (k : Nat) : Bool :=
  if env.relatedCount k > 15 then
    if env.commentsArea k || env.continuationItems k then false else true
  else false

/-- Source `_should_stop_scrolling` (src/youtube_comment_scraper.py:321-337),
with the iteration number `k` addressing the probes it performs. -/
def should_stop_scrolling (cfg : ScrollConfig) (env : ScrollEnv) (k : Nat)
    (no_new_count last_count : Nat) : Bool :=
  if no_new_count ≥ cfg.MAX_NO_NEW_COMMENTS then
    !(try_final_scroll env k last_count)
  else if no_new_count ≥ 15 ∧ last_count < 100 then
    detect_related_videos_section env k
  else false

/-- One observation step on `(last_comment_count, no_new_comments_count)`
(src/youtube_comment_scraper.py:199-205): record the count only on strict
growth, resetting the stall counter; otherwise increment the stall
counter. -/
def scrollUpdate (current : Nat) (p : Nat × Nat) : Nat × Nat :=
  if has_new_comments current p.1 then (current, 0) else (p.1, p.2 + 1)

/-- The observable state of one `_perform_smart_scroll` run.
`finalCalls` instruments how many times `_try_final_scroll` (the bounded
last-resort attempts) ran; `stoppedEarly` whether the loop left through
`break` rather than by exhausting `MAX_SCROLL_ATTEMPTS`. -/
structure LoopState where
  last : Nat
  noNew : Nat
  iters : Nat
  finalCalls : Nat
  stoppedEarly : Bool
deriving Repr, DecidableEq

/-- The `while scroll_attempts < config.MAX_SCROLL_ATTEMPTS` loop of
`_perform_smart_scroll` (src/youtube_comment_scraper.py:180-216), with
`fuel = MAX_SCROLL_ATTEMPTS - scroll_attempts` making the bound
structural.  The `_extra_patient_scroll` call at the patience midpoint for
low-count videos (line 210-212) mutates no loop state and is not
re-modelled; its page effect is part of `env.obs`. -/
def scrollLoopGo (cfg : ScrollConfig) (env : ScrollEnv) :
    Nat → LoopState → LoopState
  | 0, st => st
  | fuel + 1, st =>
    let k := st.iters + 1
    let current := env.obs k
    let p := scrollUpdate current (st.last, st.noNew)
    if has_new_comments current st.last then
      scrollLoopGo cfg env fuel
        { st with last := p.1, noNew := p.2, iters := k }
    else
      let fc := st.finalCalls + (if p.2 ≥ cfg.MAX_NO_NEW_COMMENTS then 1 else 0)
      let st1 : LoopState := { st with noNew := p.2, iters := k, finalCalls := fc }
      if should_stop_scrolling cfg env k p.2 st.last then
        { st1 with stoppedEarly := true }
      else
        scrollLoopGo cfg env fuel st1

/-- Source `_perform_smart_scroll` (src/youtube_comment_scraper.py:169-218): its
return value is the `last` field of the final state. -/
def perform_smart_scroll (cfg : ScrollConfig) (env : ScrollEnv) : LoopState :=
  scrollLoopGo cfg env cfg.MAX_SCROLL_ATTEMPTS
    { last := env.obs 0, noNew := 0, iters := 0, finalCalls := 0,
      stoppedEarly := false }

/-! ## Run Orchestrator (`scrape_video_comments`, `process_videos`) -/

/-- One entry of `self.failed_videos`
(src/youtube_comment_scraper.py:531-535). -/
structure FailedVideo where
  url : String
  reason : String
  timestamp : Nat
deriving Repr, DecidableEq

/-- The orchestrator's accumulators `all_comments`, `processed_videos`,
`failed_videos`. -/
structure RunProgress where
  all_comments : List FullComment
  processed_videos : List String
  failed_videos : List FailedVideo
deriving Repr, DecidableEq

/-- What the per-video browser work yields, indexed by the video's
position in the processed list: availability of the page
(`check_video_availability`), the boolean outcome of
`smart_infinite_scroll`, and the comment nodes
`self._get_current_comments()` returns for extraction.  `now` stands for
`datetime.now()` of the run. -/
structure OrchEnv where
  available : Nat → Bool
  scrollOk : Nat → Bool
  nodes : Nat → List CommentNode
  now : Nat

/-- Source `scrape_video_comments` (src/youtube_comment_scraper.py:524-561):
comments extracted for the video together with the `failed_videos`
entries it appends.  An unavailable video is recorded once with reason
"Video unavailable" and yields no comments; a failed scroll yields no
comments and no failure entry. -/
def scrape_video_comments (env : OrchEnv) (i : Nat) (video_url : String)
    (video_data : VideoRow) : List FullComment × List FailedVideo :=
  if !env.available i then
    ([], [{ url := video_url, reason := "Video unavailable", timestamp := env.now }])
  else if !env.scrollOk i then
    ([], [])
  else
    (process_comment_elements (env.nodes i) video_data video_url env.now, [])

/-- The per-video loop of `process_videos`
(src/youtube_comment_scraper.py:782-806) over the already-filtered rows.
A row without a URL raises `KeyError` at `row['URL']`, which the
per-video `except` absorbs (`continue`).  Comments are accumulated and
the video marked processed only when extraction yielded any. -/
def processVideosGo (env : OrchEnv) :
    Nat → List VideoRow → RunProgress → RunProgress
  | _, [], p => p
  | i, vd :: rest, p =>
    match vd.url with
    | none => processVideosGo env (i + 1) rest p
    | some u =>
      let r := scrape_video_comments env i u vd
      processVideosGo env (i + 1) rest
        { all_comments := p.all_comments ++ r.1
          processed_videos :=
            if r.1 = [] then p.processed_videos else p.processed_videos ++ [u]
          failed_videos := p.failed_videos ++ r.2 }

/-- Source `process_videos` (src/youtube_comment_scraper.py:765-815), from the
filtered video table on, with empty accumulators. -/
def process_videos (env : OrchEnv) (df_filtered : List VideoRow) : RunProgress :=
  processVideosGo env 0 df_filtered ⟨[], [], []⟩

/-! ## Concrete fixtures used by counterexamples and witnesses -/

/-- A comment node content whose every selector succeeds. -/
def cGood : CommentContent :=
  { contentText := some "hi", authorText := some " a ", voteText := some "1.2K"
    replyText := some "View 3 replies", timeText := some "1 day ago"
    hasDislikeMarker := true, hasPinnedMarker := false, hasHeartMarker := false }

/-- Fixture `cGood` with the comment text element missing: extraction fails. -/
def cBad : CommentContent :=
  { cGood with contentText := none }

/-- A video row with every cell present. -/
def vRow : VideoRow :=
  { no := some "1", date := some "2024-01-01", channel := some "ch"
    title := some "t", url := some "u1", comments := some "12"
    likes := some "3", views := some "1,000" }

/-! ## Lemmas on the batch extraction loop -/

theorem processCommentsFrom_map_data (vd : VideoRow) (url : String) (now : Nat) :
    ∀ (els : List CommentNode) (i : Nat),
      (processCommentsFrom vd url now i els).map (fun r => r.data) =
        els.filterMap extractNode := by
  intro els
  induction els with
  | nil => intro i; rfl
  | cons el rest ih =>
    intro i
    cases h : extractNode el <;> simp [processCommentsFrom, h, ih]

theorem processCommentsFrom_map_pos (vd : VideoRow) (url : String) (now : Nat) :
    ∀ (els : List CommentNode) (i : Nat),
      (processCommentsFrom vd url now i els).map
          (fun r => r.meta.comment_position) =
        ((els.enumFrom i).filter (fun q => (extractNode q.2).isSome)).map
          (fun q => q.1 + 1) := by
  intro els
  induction els with
  | nil => intro i; rfl
  | cons el rest ih =>
    intro i
    cases h : extractNode el <;>
      simp [processCommentsFrom, h, ih, build_video_metadata]

theorem processCommentsFrom_pos_gt (vd : VideoRow) (url : String) (now : Nat) :
    ∀ (els : List CommentNode) (i : Nat) (r : FullComment),
      r ∈ processCommentsFrom vd url now i els → i < r.meta.comment_position := by
  intro els
  induction els with
  | nil => intro i r hr; cases hr
  | cons el rest ih =>
    intro i r hr
    cases h : extractNode el with
    | none =>
      rw [show processCommentsFrom vd url now i (el :: rest) =
        processCommentsFrom vd url now (i + 1) rest by
          simp [processCommentsFrom, h]] at hr
      exact Nat.lt_of_succ_lt (ih (i + 1) r hr)
    | some d =>
      rw [show processCommentsFrom vd url now i (el :: rest) =
        ⟨d, build_video_metadata vd url (i + 1) now⟩ ::
          processCommentsFrom vd url now (i + 1) rest by
          simp [processCommentsFrom, h]] at hr
      rcases List.mem_cons.mp hr with hhead | htail
      · subst hhead; exact Nat.lt_succ_self i
      · exact Nat.lt_of_succ_lt (ih (i + 1) r htail)

theorem processCommentsFrom_pos_pairwise (vd : VideoRow) (url : String) (now : Nat) :
    ∀ (els : List CommentNode) (i : Nat),
      ((processCommentsFrom vd url now i els).map
        (fun r => r.meta.comment_position)).Pairwise (· < ·) := by
  intro els
  induction els with
  | nil => intro i; exact List.Pairwise.nil
  | cons el rest ih =>
    intro i
    cases h : extractNode el with
    | none => simpa [processCommentsFrom, h] using ih (i + 1)
    | some d =>
      simp only [processCommentsFrom, h, List.map_cons, List.pairwise_cons]
      refine ⟨?_, ih (i + 1)⟩
      intro pos hpos
      rcases List.mem_map.mp hpos with ⟨r, hr, hpr⟩
      have := processCommentsFrom_pos_gt vd url now rest (i + 1) r hr
      simpa [build_video_metadata, ← hpr] using this

theorem processCommentsFrom_meta (vd : VideoRow) (url : String) (now : Nat) :
    ∀ (els : List CommentNode) (i : Nat) (r : FullComment),
      r ∈ processCommentsFrom vd url now i els →
        r.meta = build_video_metadata vd url r.meta.comment_position now := by
  intro els
  induction els with
  | nil => intro i r hr; cases hr
  | cons el rest ih =>
    intro i r hr
    cases h : extractNode el with
    | none =>
      rw [show processCommentsFrom vd url now i (el :: rest) =
        processCommentsFrom vd url now (i + 1) rest by
          simp [processCommentsFrom, h]] at hr
      exact ih (i + 1) r hr
    | some d =>
      rw [show processCommentsFrom vd url now i (el :: rest) =
        ⟨d, build_video_metadata vd url (i + 1) now⟩ ::
          processCommentsFrom vd url now (i + 1) rest by
          simp [processCommentsFrom, h]] at hr
      rcases List.mem_cons.mp hr with hhead | htail
      · subst hhead; rfl
      · exact ih (i + 1) r htail

/-! ## Claim C1 — batch extraction positions -/

/-- Claim C1 counterexample.  The claim asserts that when M of N nodes
extract successfully the `comment_position` values form the sequence
1..M.  Here N = 2, the first node fails extraction (missing text), the
second succeeds with non-empty text, so M = 1 and the claim demands
positions [1] — but the code stamps the surviving record with its
enumerate index 2: a failing node does consume a position. -/
theorem C1_positions_counterexample :
    extractNode ⟨some cBad⟩ = none
    ∧ (extractNode ⟨some cGood⟩).isSome = true
    ∧ (process_comment_elements [⟨some cBad⟩, ⟨some cGood⟩] vRow "u" 0).length = 1
    ∧ (process_comment_elements [⟨some cBad⟩, ⟨some cGood⟩] vRow "u" 0).map
        (fun r => r.meta.comment_position) = [2]
    ∧ ¬ (process_comment_elements [⟨some cBad⟩, ⟨some cGood⟩] vRow "u" 0).map
        (fun r => r.meta.comment_position) = [1] := by
  decide

/-- Claim C1 as amended: for every batch, extraction returns exactly the
records of the successfully extracted nodes in their original relative
order, a node that fails extraction neither aborts the batch nor
suppresses later nodes, and each record's `comment_position` is 1 plus
the index of its source node among all supplied nodes — strictly
increasing, but not the sequence 1..M when some earlier node failed.
Each record is stamped with the video metadata, with `video_url` as the
fallback URL, and with the current instant. -/
theorem C1_positions_amended (els : List CommentNode) (vd : VideoRow)
    (url : String) (now : Nat) :
    (process_comment_elements els vd url now).map (fun r => r.data) =
        els.filterMap extractNode
    ∧ (process_comment_elements els vd url now).length =
        (els.filterMap extractNode).length
    ∧ (process_comment_elements els vd url now).map
          (fun r => r.meta.comment_position) =
        ((els.enumFrom 0).filter (fun q => (extractNode q.2).isSome)).map
          (fun q => q.1 + 1)
    ∧ ((process_comment_elements els vd url now).map
        (fun r => r.meta.comment_position)).Pairwise (· < ·)
    ∧ ∀ r ∈ process_comment_elements els vd url now,
        r.meta = build_video_metadata vd url r.meta.comment_position now := by
  refine ⟨processCommentsFrom_map_data vd url now els 0, ?_,
    processCommentsFrom_map_pos vd url now els 0,
    processCommentsFrom_pos_pairwise vd url now els 0,
    fun r hr => processCommentsFrom_meta vd url now els 0 r hr⟩
  have h := congrArg List.length (processCommentsFrom_map_data vd url now els 0)
  simpa using h

/-! ## Claim C2 — empty text rejects the record, other fields default -/

theorem extract_comment_data_text_ne (c : CommentContent) (d : CommentData)
    (h : extract_comment_data c = some d) : d.comment_text ≠ "" := by
  simp only [extract_comment_data] at h
  split at h
  · cases h
  · rename_i hne
    cases h
    exact hne

theorem filterMap_extract_text_ne :
    ∀ els : List CommentNode,
      (els.filterMap extractNode).all (fun d => !(d.comment_text = "")) = true := by
  intro els
  induction els with
  | nil => rfl
  | cons el rest ih =>
    cases h : extractNode el with
    | none => simpa [List.filterMap_cons, h] using ih
    | some d =>
      rcases Option.bind_eq_some.mp h with ⟨c, _, hc⟩
      have hd := extract_comment_data_text_ne c d hc
      simp [List.filterMap_cons, h, hd, ih]

/-- Claim C2: extraction emits a record only when the extracted comment
text is non-empty — a missing or empty text element rejects the whole
record — while a missing author, vote count, reply count, timestamp or
affordance marker merely defaults its field without rejecting the record;
consequently no record with empty text is ever emitted by the batch
pipeline. -/
theorem C2_empty_text_rejected (c : CommentContent) :
    ((extract_comment_data c).isSome ↔ (c.contentText.map pyStrip).getD "" ≠ "")
    ∧ (∀ d, extract_comment_data c = some d → d.comment_text ≠ "")
    ∧ extract_comment_data { c with contentText := none } = none
    ∧ extract_comment_data { c with contentText := some "" } = none
    ∧ extract_comment_data { c with authorText := none } =
        (extract_comment_data c).map (fun d => { d with author_name := "" })
    ∧ extract_comment_data { c with voteText := none } =
        (extract_comment_data c).map (fun d => { d with upvotes := 0 })
    ∧ extract_comment_data { c with replyText := none } =
        (extract_comment_data c).map (fun d => { d with reply_count := 0 })
    ∧ extract_comment_data { c with timeText := none } =
        (extract_comment_data c).map (fun d => { d with timestamp := "" })
    ∧ extract_comment_data { c with hasDislikeMarker := false } =
        (extract_comment_data c).map (fun d => { d with has_dislike_button := false })
    ∧ ∀ (els : List CommentNode) (vd : VideoRow) (url : String) (now : Nat),
        (process_comment_elements els vd url now).all
          (fun r => !(r.data.comment_text = "")) = true := by
  refine ⟨?_, fun d h => extract_comment_data_text_ne c d h, ?_, ?_, ?_, ?_, ?_,
    ?_, ?_, ?_⟩
  · by_cases hc : (c.contentText.map pyStrip).getD "" = "" <;>
      simp [extract_comment_data, hc]
  · simp [extract_comment_data, pyStrip, pyStripList]
  · simp [extract_comment_data, pyStrip, pyStripList]
  · by_cases hc : (c.contentText.map pyStrip).getD "" = "" <;>
      simp [extract_comment_data, hc]
  · by_cases hc : (c.contentText.map pyStrip).getD "" = "" <;>
      simp [extract_comment_data, hc]
  · by_cases hc : (c.contentText.map pyStrip).getD "" = "" <;>
      simp [extract_comment_data, hc]
  · by_cases hc : (c.contentText.map pyStrip).getD "" = "" <;>
      simp [extract_comment_data, hc]
  · by_cases hc : (c.contentText.map pyStrip).getD "" = "" <;>
      simp [extract_comment_data, hc]
  · intro els vd url now
    have hmap := processCommentsFrom_map_data vd url now els 0
    have hall : ((process_comment_elements els vd url now).map
        (fun r => r.data)).all (fun d => !(d.comment_text = "")) = true := by
      rw [show (process_comment_elements els vd url now).map (fun r => r.data) =
        els.filterMap extractNode from hmap]
      exact filterMap_extract_text_ne els
    simpa using hall

/-- Claim C2 witness: the theorem applied at a concrete node, with the
rejection hypothesis discharged on a concrete record. -/
theorem C2_empty_text_rejected_witness :
    extract_comment_data { cGood with contentText := none } = none :=
  (C2_empty_text_rejected cGood).2.2.1

/-! ## Claim C3 — parse_count test vectors and totality -/

/-- Claim C3: `_parse_count` meets the spec's test vector, and on every
input string each branch turns a failed numeric parse into 0; being a
total function it never raises to its caller. -/
theorem C3_parse_count_contract :
    parse_count "1.2K" = 1200
    ∧ parse_count "950" = 950
    ∧ parse_count "" = 0
    ∧ parse_count "abc" = 0
    ∧ ∀ s : String, s ≠ "" →
        ((((s.data.map Char.toUpper).filter (· ≠ ',')).contains 'K' = true →
          pyFloat? (((s.data.map Char.toUpper).filter (· ≠ ',')).filter (· ≠ 'K')) =
            none →
          parse_count s = 0)
        ∧ (((s.data.map Char.toUpper).filter (· ≠ ',')).contains 'K' = false →
          ((s.data.map Char.toUpper).filter (· ≠ ',')).contains 'M' = true →
          pyFloat? (((s.data.map Char.toUpper).filter (· ≠ ',')).filter (· ≠ 'M')) =
            none →
          parse_count s = 0)
        ∧ (((s.data.map Char.toUpper).filter (· ≠ ',')).contains 'K' = false →
          ((s.data.map Char.toUpper).filter (· ≠ ',')).contains 'M' = false →
          pyInt? ((s.data.map Char.toUpper).filter (· ≠ ',')) = none →
          parse_count s = 0)) := by
  refine ⟨by decide, by decide, by decide, by decide, ?_⟩
  intro s hs
  refine ⟨fun hK hF => ?_, fun hK hM hF => ?_, fun hK hM hI => ?_⟩
  · simp only [parse_count]
    rw [if_neg hs, if_pos hK, hF]
  · simp only [parse_count]
    rw [if_neg hs, if_neg (by rw [hK]; exact Bool.false_ne_true), if_pos hM, hF]
  · simp only [parse_count]
    rw [if_neg hs, if_neg (by rw [hK]; exact Bool.false_ne_true),
      if_neg (by rw [hM]; exact Bool.false_ne_true), hI]

/-! ## Claims C4, C5, C10 — the video filter -/

/-- Claim C4: a minimum bound set to exactly 0 disables the corresponding
filter block — the filtered table is exactly the table filtered by the
remaining five bounds, so that bound removes no video regardless of its
declared metric; with all minimums 0 and all maximums absent, the filter
removes nothing at all. -/
theorem C4_zero_min_disables (cfg : FilterConfig) (df : List VideoRow) :
    (cfg.MIN_COMMENTS = 0 →
      apply_video_filters cfg df = df.filter (fun r =>
        passMin cfg.MIN_LIKES (parse_korean_number r.likes) &&
        (passMin cfg.MIN_VIEWS (parse_korean_number r.views) &&
        (passMax cfg.MAX_COMMENTS (parse_korean_number r.comments) &&
        (passMax cfg.MAX_LIKES (parse_korean_number r.likes) &&
        passMax cfg.MAX_VIEWS (parse_korean_number r.views))))))
    ∧ (cfg.MIN_LIKES = 0 →
      apply_video_filters cfg df = df.filter (fun r =>
        passMin cfg.MIN_COMMENTS (parse_korean_number r.comments) &&
        (passMin cfg.MIN_VIEWS (parse_korean_number r.views) &&
        (passMax cfg.MAX_COMMENTS (parse_korean_number r.comments) &&
        (passMax cfg.MAX_LIKES (parse_korean_number r.likes) &&
        passMax cfg.MAX_VIEWS (parse_korean_number r.views))))))
    ∧ (cfg.MIN_VIEWS = 0 →
      apply_video_filters cfg df = df.filter (fun r =>
        passMin cfg.MIN_COMMENTS (parse_korean_number r.comments) &&
        (passMin cfg.MIN_LIKES (parse_korean_number r.likes) &&
        (passMax cfg.MAX_COMMENTS (parse_korean_number r.comments) &&
        (passMax cfg.MAX_LIKES (parse_korean_number r.likes) &&
        passMax cfg.MAX_VIEWS (parse_korean_number r.views))))))
    ∧ (cfg.MIN_COMMENTS = 0 → cfg.MIN_LIKES = 0 → cfg.MIN_VIEWS = 0 →
      cfg.MAX_COMMENTS = none → cfg.MAX_LIKES = none → cfg.MAX_VIEWS = none →
      apply_video_filters cfg df = df) := by
  refine ⟨fun h1 => ?_, fun h2 => ?_, fun h3 => ?_,
    fun h1 h2 h3 h4 h5 h6 => ?_⟩
  · rw [apply_video_filters_eq_filter]
    exact List.filter_congr (fun r _ => by simp [videoPasses, h1, passMin])
  · rw [apply_video_filters_eq_filter]
    exact List.filter_congr (fun r _ => by simp [videoPasses, h2, passMin])
  · rw [apply_video_filters_eq_filter]
    exact List.filter_congr (fun r _ => by simp [videoPasses, h3, passMin])
  · rw [apply_video_filters_eq_filter]
    have : ∀ r ∈ df, videoPasses cfg r = true := fun r _ => by
      simp [videoPasses, h1, h2, h3, h4, h5, h6, passMin, passMax]
    rw [List.filter_congr this, List.filter_true]

/-- Claim C4 witness: with the shipped likes minimum (0) zeroed alongside
the others and no maximums, a concrete table passes through unchanged. -/
theorem C4_zero_min_disables_witness :
    apply_video_filters
      { MIN_COMMENTS := 0, MIN_LIKES := 0, MIN_VIEWS := 0,
        MAX_COMMENTS := none, MAX_LIKES := none, MAX_VIEWS := none }
      [vRow] = [vRow] :=
  (C4_zero_min_disables
    { MIN_COMMENTS := 0, MIN_LIKES := 0, MIN_VIEWS := 0,
      MAX_COMMENTS := none, MAX_LIKES := none, MAX_VIEWS := none }
    [vRow]).2.2.2 rfl rfl rfl rfl rfl rfl

/-- Claim C5: the video filter is idempotent — applying it twice with
the same bounds yields exactly the rows of applying it once. -/
theorem C5_filter_idempotent (cfg : FilterConfig) (df : List VideoRow) :
    apply_video_filters cfg (apply_video_filters cfg df) =
      apply_video_filters cfg df := by
  rw [apply_video_filters_eq_filter, apply_video_filters_eq_filter cfg df,
    List.filter_filter]
  exact List.filter_congr (fun r _ => by cases videoPasses cfg r <;> simp)

/-- Claim C10: the video filter returns a sublist of its input — a subset
of the original rows, in the original relative order, each surviving row
being the unchanged input row (the parsed helper values live only in the
intermediate pass and are projected away before return, as the result's
row type shows). -/
theorem C10_filter_sublist (cfg : FilterConfig) (df : List VideoRow) :
    (apply_video_filters cfg df).Sublist df := by
  rw [apply_video_filters_eq_filter]
  exact List.filter_sublist df

/-! ## Lemmas on the scroll loop -/

theorem has_new_comments_iff (a b : Nat) : has_new_comments a b = true ↔ b < a := by
  simp [has_new_comments]

theorem scrollUpdate_fst_ge (current : Nat) (p : Nat × Nat) :
    p.1 ≤ (scrollUpdate current p).1 := by
  by_cases h : has_new_comments current p.1 = true
  · simp only [scrollUpdate, if_pos h]
    exact Nat.le_of_lt ((has_new_comments_iff current p.1).mp h)
  · simp only [scrollUpdate, if_neg h]
    exact Nat.le_refl _

theorem scrollLoopGo_last_mono (cfg : ScrollConfig) (env : ScrollEnv) :
    ∀ (fuel : Nat) (st : LoopState), st.last ≤ (scrollLoopGo cfg env fuel st).last := by
  intro fuel
  induction fuel with
  | zero => intro st; exact Nat.le_refl _
  | succ fuel ih =>
    intro st
    simp only [scrollLoopGo]
    by_cases h : has_new_comments (env.obs (st.iters + 1)) st.last = true
    · rw [if_pos h]
      refine Nat.le_trans ?_ (ih _)
      exact scrollUpdate_fst_ge (env.obs (st.iters + 1)) (st.last, st.noNew)
    · rw [if_neg h]
      by_cases h2 : should_stop_scrolling cfg env (st.iters + 1)
        (scrollUpdate (env.obs (st.iters + 1)) (st.last, st.noNew)).2 st.last = true
      · rw [if_pos h2]
      · rw [if_neg h2]
        exact ih
          { last := st.last
            noNew := (scrollUpdate (env.obs (st.iters + 1)) (st.last, st.noNew)).2
            iters := st.iters + 1
            finalCalls := st.finalCalls +
              (if (scrollUpdate (env.obs (st.iters + 1)) (st.last, st.noNew)).2 ≥
                cfg.MAX_NO_NEW_COMMENTS then 1 else 0)
            stoppedEarly := st.stoppedEarly }

theorem scrollLoopGo_iters_le (cfg : ScrollConfig) (env : ScrollEnv) :
    ∀ (fuel : Nat) (st : LoopState),
      (scrollLoopGo cfg env fuel st).iters ≤ st.iters + fuel := by
  intro fuel
  induction fuel with
  | zero => intro st; exact Nat.le_refl _
  | succ fuel ih =>
    intro st
    simp only [scrollLoopGo]
    by_cases h : has_new_comments (env.obs (st.iters + 1)) st.last = true
    · rw [if_pos h]
      have := ih { st with
        last := (scrollUpdate (env.obs (st.iters + 1)) (st.last, st.noNew)).1,
        noNew := (scrollUpdate (env.obs (st.iters + 1)) (st.last, st.noNew)).2,
        iters := st.iters + 1 }
      simp only at this
      omega
    · rw [if_neg h]
      by_cases h2 : should_stop_scrolling cfg env (st.iters + 1)
        (scrollUpdate (env.obs (st.iters + 1)) (st.last, st.noNew)).2 st.last = true
      · rw [if_pos h2]
        simp only
        omega
      · rw [if_neg h2]
        refine Nat.le_trans (ih _) ?_
        simp only
        omega

/-! ## Claim C6 — observed count monotone, stall counter discipline -/

/-- Claim C6: within a run the observed comment count is non-decreasing;
one observation step records the new count (resetting the stall counter
to 0) exactly when the queried count strictly exceeds the recorded one,
and otherwise leaves the count and increments the stall counter by 1;
consequently the whole loop never decreases the recorded count, and the
final count of a run is at least the initially observed one. -/
theorem C6_observed_count_monotone (current last noNew : Nat)
    (cfg : ScrollConfig) (env : ScrollEnv) (fuel : Nat) (st : LoopState) :
    last ≤ (scrollUpdate current (last, noNew)).1
    ∧ scrollUpdate current (last, noNew) =
        (if last < current then (current, 0) else (last, noNew + 1))
    ∧ st.last ≤ (scrollLoopGo cfg env fuel st).last
    ∧ env.obs 0 ≤ (perform_smart_scroll cfg env).last := by
  refine ⟨scrollUpdate_fst_ge current (last, noNew), ?_,
    scrollLoopGo_last_mono cfg env fuel st, ?_⟩
  · simp [scrollUpdate, has_new_comments]
  · show env.obs 0 ≤ (scrollLoopGo cfg env cfg.MAX_SCROLL_ATTEMPTS
      { last := env.obs 0, noNew := 0, iters := 0, finalCalls := 0,
        stoppedEarly := false }).last
    exact scrollLoopGo_last_mono cfg env cfg.MAX_SCROLL_ATTEMPTS
      { last := env.obs 0, noNew := 0, iters := 0, finalCalls := 0,
        stoppedEarly := false }

/-! ## Claim C7 — controller termination within the outer bound -/

/-- Claim C7: for any patience limit P ≥ 1 and outer bound B ≥ P the
controller terminates (it is a total function of its fuel) after at most
B main-loop iterations, returning a final count that is either positive
(success) or zero (exhaustion). -/
theorem C7_controller_terminates (cfg : ScrollConfig) (env : ScrollEnv)
    (hP : 1 ≤ cfg.MAX_NO_NEW_COMMENTS)
    (hB : cfg.MAX_NO_NEW_COMMENTS ≤ cfg.MAX_SCROLL_ATTEMPTS) :
    (perform_smart_scroll cfg env).iters ≤ cfg.MAX_SCROLL_ATTEMPTS
    ∧ (0 < (perform_smart_scroll cfg env).last
        ∨ (perform_smart_scroll cfg env).last = 0) := by
  constructor
  · have h := scrollLoopGo_iters_le cfg env cfg.MAX_SCROLL_ATTEMPTS
      { last := env.obs 0, noNew := 0, iters := 0, finalCalls := 0,
        stoppedEarly := false }
    simpa [perform_smart_scroll] using h
  · rcases Nat.eq_zero_or_pos (perform_smart_scroll cfg env).last with h | h
    · exact Or.inr h
    · exact Or.inl h

/-- An environment in which every query yields nothing. -/
def envZero : ScrollEnv :=
  { obs := fun _ => 0, finalObs := fun _ _ => 0, relatedCount := fun _ => 0,
    commentsArea := fun _ => false, continuationItems := fun _ => false }

/-- Claim C7 witness: shipped configuration (P = 1 ≤ B = 5000) on the
empty page. -/
theorem C7_controller_terminates_witness :
    (perform_smart_scroll shippedScrollConfig envZero).iters ≤
        shippedScrollConfig.MAX_SCROLL_ATTEMPTS
    ∧ (0 < (perform_smart_scroll shippedScrollConfig envZero).last
        ∨ (perform_smart_scroll shippedScrollConfig envZero).last = 0) :=
  C7_controller_terminates shippedScrollConfig envZero (by decide) (by decide)

/-! ## Claim C8 — the related-videos stop skips the final-scroll attempts -/

/-- Configuration making the trailing-section guard reachable: patience
limit 20 is above the hard-coded trailing-section threshold 15. -/
def cfgC8 : ScrollConfig := { MAX_SCROLL_ATTEMPTS := 30, MAX_NO_NEW_COMMENTS := 20 }

/-- A page stuck at 5 comments, showing 20 related-video renderers and
neither a comments area nor a continuation affordance. -/
def envC8 : ScrollEnv :=
  { obs := fun _ => 5, finalObs := fun _ _ => 0, relatedCount := fun _ => 20,
    commentsArea := fun _ => false, continuationItems := fun _ => false }

/-- Claim C8 counterexample.  The claim asserts that the trailing-section
stop still performs the bounded last-resort advance attempts
(`_try_final_scroll`) before reaching a terminal state.  In this run the
stall counter reaches 15 with only 5 (< 100) comments observed, the probe
finds the trailing section with no continuation affordance, the patience
limit (20) is not exhausted — and the controller stops terminally with
`_try_final_scroll` never invoked (`finalCalls = 0`). -/
theorem C8_related_stop_counterexample :
    (perform_smart_scroll cfgC8 envC8).stoppedEarly = true
    ∧ (perform_smart_scroll cfgC8 envC8).noNew = 15
    ∧ (perform_smart_scroll cfgC8 envC8).noNew < cfgC8.MAX_NO_NEW_COMMENTS
    ∧ (perform_smart_scroll cfgC8 envC8).last = 5
    ∧ detect_related_videos_section envC8 (perform_smart_scroll cfgC8 envC8).iters
        = true
    ∧ (perform_smart_scroll cfgC8 envC8).finalCalls = 0 := by
  decide

/-- Claim C8 as amended: when the stall counter reaches the trailing-
section threshold 15 below the patience limit, the observed count is
still below the small-list threshold 100 and the probe finds the trailing
related-videos section with no continuation affordance, the controller
stops immediately — terminal at that very step, with no last-resort
final-scroll attempt performed (those run only when the stall counter
reaches the patience limit itself). -/
theorem C8_related_stop_amended (cfg : ScrollConfig) (env : ScrollEnv)
    (fuel : Nat) (st : LoopState)
    (hgrow : ¬ st.last < env.obs (st.iters + 1))
    (hP : st.noNew + 1 < cfg.MAX_NO_NEW_COMMENTS)
    (h15 : 15 ≤ st.noNew + 1)
    (h100 : st.last < 100)
    (hrel : detect_related_videos_section env (st.iters + 1) = true) :
    scrollLoopGo cfg env (fuel + 1) st =
      { st with
        noNew := st.noNew + 1
        iters := st.iters + 1
        stoppedEarly := true } := by
  have hb : has_new_comments (env.obs (st.iters + 1)) st.last = false := by
    rw [← Bool.not_eq_true]
    intro hc
    exact hgrow ((has_new_comments_iff _ _).mp hc)
  have hupd : scrollUpdate (env.obs (st.iters + 1)) (st.last, st.noNew) =
      (st.last, st.noNew + 1) := by
    simp only [scrollUpdate, hb, Bool.false_eq_true, if_false]
  have hstop : should_stop_scrolling cfg env (st.iters + 1) (st.noNew + 1) st.last
      = true := by
    simp only [should_stop_scrolling, if_neg (by omega : ¬ st.noNew + 1 ≥
      cfg.MAX_NO_NEW_COMMENTS), if_pos (⟨h15, h100⟩ : st.noNew + 1 ≥ 15 ∧
      st.last < 100)]
    exact hrel
  simp only [scrollLoopGo, hb, Bool.false_eq_true, if_false, hupd, hstop, if_true]
  have hfc : (if st.noNew + 1 ≥ cfg.MAX_NO_NEW_COMMENTS then 1 else 0) = 0 :=
    if_neg (by omega)
  simp [hfc]

/-- The loop state one step before the trailing-section stop of the
`cfgC8`/`envC8` run. -/
def stC8 : LoopState :=
  { last := 5, noNew := 14, iters := 14, finalCalls := 0, stoppedEarly := false }

/-- Claim C8 amended witness: the amended theorem applied at the concrete
stuck run, all guards discharged by computation. -/
theorem C8_related_stop_amended_witness :
    scrollLoopGo cfgC8 envC8 (15 + 1) stC8 =
      { last := 5, noNew := 15, iters := 15, finalCalls := 0,
        stoppedEarly := true } := by
  have h := C8_related_stop_amended cfgC8 envC8 15 stC8 (by decide) (by decide)
    (by decide) (by decide) (by decide)
  exact h.trans (by decide)

/-! ## Claim C9 — failed-video isolation in the orchestrator -/

/-- The failure entry an unavailable video at position `q.1` contributes,
if any. -/
def failedEntryOf (env : OrchEnv) (q : Nat × VideoRow) : Option FailedVideo :=
  match q.2.url with
  | some u =>
    if env.available q.1 then none
    else some { url := u, reason := "Video unavailable", timestamp := env.now }
  | none => none

/-- The comment records a video at position `q.1` contributes: none
unless it is available and its scroll succeeded. -/
def commentsOf (env : OrchEnv) (q : Nat × VideoRow) : List FullComment :=
  match q.2.url with
  | some u =>
    if env.available q.1 && env.scrollOk q.1 then
      process_comment_elements (env.nodes q.1) q.2 u env.now
    else []
  | none => []

theorem processVideosGo_failed (env : OrchEnv) :
    ∀ (vids : List VideoRow) (i : Nat) (p : RunProgress),
      (processVideosGo env i vids p).failed_videos =
        p.failed_videos ++ (vids.enumFrom i).filterMap (failedEntryOf env) := by
  intro vids
  induction vids with
  | nil => intro i p; simp [processVideosGo]
  | cons vd rest ih =>
    intro i p
    cases hu : vd.url with
    | none => simp [processVideosGo, hu, ih, failedEntryOf]
    | some u =>
      cases ha : env.available i <;> cases hs : env.scrollOk i <;>
        simp [processVideosGo, hu, ha, hs, ih, failedEntryOf,
          scrape_video_comments]

theorem processVideosGo_comments (env : OrchEnv) :
    ∀ (vids : List VideoRow) (i : Nat) (p : RunProgress),
      (processVideosGo env i vids p).all_comments =
        p.all_comments ++ (vids.enumFrom i).flatMap (commentsOf env) := by
  intro vids
  induction vids with
  | nil => intro i p; simp [processVideosGo]
  | cons vd rest ih =>
    intro i p
    cases hu : vd.url with
    | none => simp [processVideosGo, hu, ih, commentsOf]
    | some u =>
      cases ha : env.available i <;> cases hs : env.scrollOk i <;>
        simp [processVideosGo, hu, ha, hs, ih, commentsOf,
          scrape_video_comments]

/-- Second and third input videos for the C9 scenario. -/
def vRow2 : VideoRow := { vRow with no := some "2", url := some "u2" }

def vRow3 : VideoRow := { vRow with no := some "3", url := some "u3" }

/-- Scenario environment: the second video (index 1) fails the
availability check; all others are available, scroll succeeds and yields
one extractable comment node. -/
def envC9 : OrchEnv :=
  { available := fun i => decide (i ≠ 1), scrollOk := fun _ => true,
    nodes := fun _ => [⟨some cGood⟩], now := 9 }

/-- Claim C9: a video that fails the availability check contributes
exactly one failed-videos entry carrying its URL and the reason, and no
comment records; the orchestrator keeps going through the remaining
videos (the run is a total function of its inputs).  Concretely, with 3
videos of which only the second fails availability, the output holds the
comments of videos 1 and 3 only, the failed list is exactly the one entry
for video 2, and videos 1 and 3 are both processed. -/
theorem C9_failed_video_isolation :
    (∀ (env : OrchEnv) (vids : List VideoRow),
      (process_videos env vids).failed_videos =
        (vids.enumFrom 0).filterMap (failedEntryOf env))
    ∧ (∀ (env : OrchEnv) (vids : List VideoRow),
      (process_videos env vids).all_comments =
        (vids.enumFrom 0).flatMap (commentsOf env))
    ∧ (process_videos envC9 [vRow, vRow2, vRow3]).failed_videos =
        [{ url := "u2", reason := "Video unavailable", timestamp := 9 }]
    ∧ (process_videos envC9 [vRow, vRow2, vRow3]).all_comments =
        process_comment_elements [⟨some cGood⟩] vRow "u1" 9 ++
          process_comment_elements [⟨some cGood⟩] vRow3 "u3" 9
    ∧ (process_videos envC9 [vRow, vRow2, vRow3]).all_comments.map
        (fun r => r.meta.video_url) = ["u1", "u3"]
    ∧ (process_videos envC9 [vRow, vRow2, vRow3]).processed_videos =
        ["u1", "u3"] := by
  refine ⟨?_, ?_, by decide, by decide, by decide, by decide⟩
  · intro env vids
    simpa using processVideosGo_failed env vids 0 ⟨[], [], []⟩
  · intro env vids
    simpa using processVideosGo_comments env vids 0 ⟨[], [], []⟩

end Scraper
